import Mathlib

/-!
Shallow embedding of `src/vite.config.ts`.

The file exports `defineConfig(async () => ({ ... }))`: an asynchronous
zero-parameter factory whose body is a single object literal.  The
embedding below translates that literal field by field, models the
async arrow as a single-shot promise with explicit suspension points,
and provides three instrumented views of the same body needed by the
stated properties: one threaded through an arbitrary ambient state, one
receiving the build tool's environment-mode descriptor, and one in
which the `vue()` plugin-construction call is made explicitly fallible.
-/

/-- Opaque options record for the external UI-framework plugin
(`@vitejs/plugin-vue`).  The plugin accepts an optional options
argument whose shape is external to this repository, so a single opaque
inhabitant stands for any explicitly supplied options. -/
inductive VueOptions : Type where
  | custom : VueOptions
deriving DecidableEq

/-- A plugin descriptor as it appears in the `plugins` array.  The only
plugin this configuration constructs is the Vue integration; the
`Option VueOptions` payload records whether it was built with explicit
options or, when `none`, with default options (no arguments). -/
inductive PluginDescriptor : Type where
  | vuePlugin : Option VueOptions → PluginDescriptor
deriving DecidableEq

/-- The call `vue()` on line 8 of `src/vite.config.ts`: it constructs
the UI-framework plugin descriptor with no arguments, hence with
default options. -/
def vue : PluginDescriptor := PluginDescriptor.vuePlugin none

/-- The `server.watch` record, lines 15-18 of `src/vite.config.ts`. -/
structure WatchOptions : Type where
  ignored : List String
deriving DecidableEq

/-- The `server` record, lines 12-19 of `src/vite.config.ts`. -/
structure ServerOptions : Type where
  port : Nat
  strictPort : Bool
  watch : WatchOptions
deriving DecidableEq

/-- The Configuration Object the factory produces (the fields of vite's
`UserConfig` that `src/vite.config.ts` sets). -/
structure UserConfig : Type where
  plugins : List PluginDescriptor
  clearScreen : Bool
  server : ServerOptions
deriving DecidableEq

/-- A single-shot promise: `resolved` is a settled value and
`suspended` marks one cooperative suspension point (an `await`) before
the remainder of the computation runs. -/
inductive Async (α : Type) : Type where
  | resolved : α → Async α
  | suspended : Async α → Async α
deriving DecidableEq

/-- Number of suspension points a computation passes before settling. -/
def Async.suspensions {α : Type} : Async α → Nat
  | Async.resolved _ => 0
  | Async.suspended rest => Async.suspensions rest + 1

/-- The value an `Async` computation eventually settles to. -/
def Async.result {α : Type} : Async α → α
  | Async.resolved v => v
  | Async.suspended rest => Async.result rest

/-- Vite's `defineConfig`: a pure identity wrapper used only to give
the exported value its type. -/
def defineConfig {α : Type} (config : α) : α := config

/-- The object literal forming the factory body, lines 6-20 of
`src/vite.config.ts`, translated field by field. -/
def configurationLiteral : UserConfig :=
  { plugins := [vue]
    clearScreen := false
    server :=
      { port := 1420
        strictPort := true
        watch := { ignored := [ "**/src-tauri/**" ] } } }

/-- The default export, `defineConfig(async () => ({ ... }))`: a
zero-parameter asynchronous factory.  Its body contains no `await`, so
its translation settles immediately on the object literal. -/
def produceConfiguration : Unit → Async UserConfig :=
  defineConfig (fun _ => Async.resolved configurationLiteral)

/-- Modelled from the spec: the resolved object of the scenario in
section 8, namely plugins holding exactly the UI-framework descriptor
built with default options, clearScreen false, server port 1420 with
strict port binding, and the single watch-exclusion glob for the
`src-tauri` directory.  Stated independently of `configurationLiteral`
so the source-side value can be compared against the spec's words. -/
def specResolvedObject : UserConfig :=
  { plugins := [ PluginDescriptor.vuePlugin none ]
    clearScreen := false
    server :=
      { port := 1420
        strictPort := true
        watch := { ignored := [ "**/src-tauri/**" ] } } }

/-- The factory invocation threaded through an arbitrary ambient state:
the body of the arrow on lines 6-20 is a single parenthesised object
literal, with no assignments, calls into shared state, or I/O
statements, so its state-passing translation returns the promise and
passes the ambient state through unchanged. -/
def produceConfigurationSt (σ : Type) (s : σ) : Async UserConfig × σ :=
  (produceConfiguration (), s)

/-- The two phases of the build tool's invocation, part of the
environment-mode descriptor vite supplies to configuration factories. -/
inductive Command : Type where
  | serve : Command
  | build : Command
deriving DecidableEq

/-- The environment-mode descriptor the build tool passes to a
configuration factory under the general vite contract. -/
structure ConfigEnv : Type where
  command : Command
  mode : String
deriving DecidableEq

/-- The factory as invoked by the build tool with an environment-mode
descriptor: the arrow on line 6 declares zero parameters, so whatever
descriptor the caller supplies is dropped and the body runs as is. -/
def produceConfigurationEnv (_env : ConfigEnv) : Async UserConfig :=
  produceConfiguration ()

/-- The factory body with the `vue()` call made explicit and fallible:
the literal evaluates `vue()` first (line 8), so if that construction
throws, the factory rejects with exactly that error and produces no
configuration; otherwise it resolves to the literal built around the
returned descriptor. -/
def produceConfigurationWith {ε : Type} (vueCall : Except ε PluginDescriptor) :
    Except ε UserConfig :=
  match vueCall with
  | Except.error e => Except.error e
  | Except.ok p =>
      Except.ok
        { plugins := [p]
          clearScreen := false
          server :=
            { port := 1420
              strictPort := true
              watch := { ignored := [ "**/src-tauri/**" ] } } }

/-- C1: invoked with no arguments, the factory resolves to the
Configuration Object of the spec scenario: plugins equal to the single
default-options UI-framework descriptor, clearScreen false, server port
1420 with strictPort true, and watch ignoring exactly the glob for the
`src-tauri` directory. -/
theorem produceConfiguration_resolves_to_spec_object :
    (produceConfiguration ()).result = specResolvedObject := rfl

/-- C2: every invocation of the factory resolves to a Configuration
Object whose server.port is 1420 and whose server.strictPort is true. -/
theorem produceConfiguration_port_strictPort (u : Unit) :
    (produceConfiguration u).result.server.port = 1420 ∧
    (produceConfiguration u).result.server.strictPort = true :=
  ⟨rfl, rfl⟩

/-- C2 witness: the port and strict-port facts at the concrete
invocation with the unit argument. -/
theorem produceConfiguration_port_strictPort_at_unit :
    (produceConfiguration ()).result.server.port = 1420 ∧
    (produceConfiguration ()).result.server.strictPort = true :=
  produceConfiguration_port_strictPort ()

/-- C3: every invocation resolves to a Configuration Object whose
plugins field has length exactly 1 and whose single element is the
UI-framework descriptor constructed by `vue()` with default options. -/
theorem produceConfiguration_plugins_single_vue (u : Unit) :
    (produceConfiguration u).result.plugins.length = 1 ∧
    (produceConfiguration u).result.plugins = [vue] ∧
    vue = PluginDescriptor.vuePlugin none :=
  ⟨rfl, rfl, rfl⟩

/-- C3 witness: the plugins facts at the concrete invocation with the
unit argument. -/
theorem produceConfiguration_plugins_single_vue_at_unit :
    (produceConfiguration ()).result.plugins.length = 1 ∧
    (produceConfiguration ()).result.plugins = [vue] ∧
    vue = PluginDescriptor.vuePlugin none :=
  produceConfiguration_plugins_single_vue ()

/-- C4: every invocation resolves to a Configuration Object whose
server.watch.ignored list is exactly the one-element list holding the
glob pattern for the `src-tauri` directory. -/
theorem produceConfiguration_watch_ignored (u : Unit) :
    (produceConfiguration u).result.server.watch.ignored =
      [ "**/src-tauri/**" ] := rfl

/-- C4 witness: the watch-exclusion fact at the concrete invocation
with the unit argument. -/
theorem produceConfiguration_watch_ignored_at_unit :
    (produceConfiguration ()).result.server.watch.ignored =
      [ "**/src-tauri/**" ] :=
  produceConfiguration_watch_ignored ()

/-- C5: every invocation resolves to a Configuration Object whose
clearScreen field is false. -/
theorem produceConfiguration_clearScreen_false (u : Unit) :
    (produceConfiguration u).result.clearScreen = false := rfl

/-- C5 witness: the clearScreen fact at the concrete invocation with
the unit argument. -/
theorem produceConfiguration_clearScreen_false_at_unit :
    (produceConfiguration ()).result.clearScreen = false :=
  produceConfiguration_clearScreen_false ()

/-- C6: idempotence.  Invoking the factory twice in sequence within the
same process (the second invocation starting from the ambient state the
first one left behind) yields structurally equal promises, hence
structurally equal Configuration Objects. -/
theorem produceConfiguration_idempotent (σ : Type) (s : σ) :
    (produceConfigurationSt σ ((produceConfigurationSt σ s).2)).1 =
      (produceConfigurationSt σ s).1 ∧
    ((produceConfigurationSt σ ((produceConfigurationSt σ s).2)).1).result =
      ((produceConfigurationSt σ s).1).result :=
  ⟨rfl, rfl⟩

/-- C6 witness: the idempotence fact at a concrete ambient state. -/
theorem produceConfiguration_idempotent_at_nat :
    (produceConfigurationSt Nat ((produceConfigurationSt Nat 7).2)).1 =
      (produceConfigurationSt Nat 7).1 ∧
    ((produceConfigurationSt Nat ((produceConfigurationSt Nat 7).2)).1).result =
      ((produceConfigurationSt Nat 7).1).result :=
  produceConfiguration_idempotent Nat 7

/-- C7: noninterference with the environment-mode input.  The factory
declares zero parameters, so for any two environment-mode descriptors
the build tool may supply, the resolved Configuration Objects are
equal. -/
theorem produceConfigurationEnv_noninterference (e₁ e₂ : ConfigEnv) :
    produceConfigurationEnv e₁ = produceConfigurationEnv e₂ ∧
    (produceConfigurationEnv e₁).result = (produceConfigurationEnv e₂).result :=
  ⟨rfl, rfl⟩

/-- C7 witness: the noninterference fact at two concrete, distinct
environment-mode descriptors. -/
theorem produceConfigurationEnv_noninterference_at_two_envs :
    produceConfigurationEnv ⟨Command.serve, "development"⟩ =
      produceConfigurationEnv ⟨Command.build, "production"⟩ ∧
    (produceConfigurationEnv ⟨Command.serve, "development"⟩).result =
      (produceConfigurationEnv ⟨Command.build, "production"⟩).result :=
  produceConfigurationEnv_noninterference
    ⟨Command.serve, "development"⟩ ⟨Command.build, "production"⟩

/-- C8: frame property.  An invocation threaded through any ambient
state leaves that state exactly as it was and delivers the resolved
Configuration Object, so the only effect of the factory is the value it
returns. -/
theorem produceConfigurationSt_frame (σ : Type) (s : σ) :
    (produceConfigurationSt σ s).2 = s ∧
    ((produceConfigurationSt σ s).1).result = configurationLiteral :=
  ⟨rfl, rfl⟩

/-- C8 witness: the frame fact at a concrete ambient state. -/
theorem produceConfigurationSt_frame_at_nat :
    (produceConfigurationSt Nat 42).2 = 42 ∧
    ((produceConfigurationSt Nat 42).1).result = configurationLiteral :=
  produceConfigurationSt_frame Nat 42

/-- C9: error propagation.  The factory succeeds exactly when the
`vue()` plugin construction succeeds, and when that construction throws
an error the factory rejects with that very error, unchanged: no
retry and no fallback configuration is produced. -/
theorem produceConfigurationWith_error_propagation
    {ε : Type} (e : ε) (r : Except ε PluginDescriptor) :
    (produceConfigurationWith r).isOk = r.isOk ∧
    produceConfigurationWith (Except.error e : Except ε PluginDescriptor) =
      Except.error e := by
  refine ⟨?_, rfl⟩
  cases r <;> rfl

/-- C9 witness: error propagation at a concrete error value, together
with the success shape at the concrete descriptor built by `vue()`. -/
theorem produceConfigurationWith_error_propagation_at_string :
    (produceConfigurationWith (Except.ok vue : Except String PluginDescriptor)).isOk =
      (Except.ok vue : Except String PluginDescriptor).isOk ∧
    produceConfigurationWith
        (Except.error "plugin construction failed" : Except String PluginDescriptor) =
      Except.error "plugin construction failed" :=
  ⟨(produceConfigurationWith_error_propagation "plugin construction failed"
      (Except.ok vue)).1,
   (produceConfigurationWith_error_propagation "plugin construction failed"
      (Except.ok vue)).2⟩

/-- C10: although declared asynchronous, the factory body contains no
suspension point: every invocation settles immediately, passing zero
suspensions, and the promise is already the resolved Configuration
Object with no pending deferred value. -/
theorem produceConfiguration_no_suspension (u : Unit) :
    (produceConfiguration u).suspensions = 0 ∧
    produceConfiguration u = Async.resolved configurationLiteral :=
  ⟨rfl, rfl⟩

/-- C10 witness: the zero-suspension fact at the concrete invocation
with the unit argument. -/
theorem produceConfiguration_no_suspension_at_unit :
    (produceConfiguration ()).suspensions = 0 ∧
    produceConfiguration () = Async.resolved configurationLiteral :=
  produceConfiguration_no_suspension ()
